import Mathlib

/-!
# Verification of the fp-bindgen binding generator

A shallow embedding of the parts of the `fp-bindgen` repository that the
specification's claims are about, together with theorems settling each claim.

Source files embedded here:
- `src/fp-bindgen/src/generators/ts_runtime/mod.rs` (the dynamic host / TypeScript
  runtime generator and the runtime boilerplate it emits verbatim),
- `src/fp-bindgen/src/generators/rust_wasmer_runtime/mod.rs` (the native host
  runtime generator).

Repository code that is referenced from the sources above but is not itself under
`src/` (e.g. `src/types.rs`, `src/casing.rs`, `src/primitives.rs`, the Inflector
dependency) is modelled from the spec; every such definition carries a doc
comment starting with `Modelled from the spec:`.
-/

namespace FpBindgen

/-! ## FatPtr packing (generated dynamic-host runtime)

The generated TypeScript runtime (ts_runtime/mod.rs, lines 161-170 of the
emitted template) contains:

```ts
function fromFatPtr(fatPtr: FatPtr): [ptr: number, len: number] {
    return [
        Number.parseInt((fatPtr >> 32n).toString()),
        Number.parseInt((fatPtr & 0xffff_ffffn).toString()),
    ];
}

function toFatPtr(ptr: number, len: number): FatPtr {
    return (BigInt(ptr) << 32n) | BigInt(len);
}
```

`FatPtr` is a `bigint` (arbitrary precision, non-negative here since `ptr` and
`len` originate from 32-bit WASM values), so the JavaScript operations are
embedded as operations on `Nat`.  `Number.parseInt` of the decimal string of a
non-negative bigint below 2^53 is the identity, so it is dropped.
-/

/-- `toFatPtr` from the emitted runtime: `(BigInt(ptr) << 32n) | BigInt(len)`. -/
def toFatPtr (ptr len : Nat) : Nat :=
  (ptr <<< 32) ||| len

/-- `fromFatPtr` from the emitted runtime: `[fatPtr >> 32n, fatPtr & 0xffff_ffffn]`. -/
def fromFatPtr (fatPtr : Nat) : Nat × Nat :=
  (fatPtr >>> 32, fatPtr &&& 0xffffffff)

/-- Masking with `0xffff_ffff` is reduction modulo `2^32`. -/
theorem and_mask32_eq_mod (x : Nat) : x &&& 0xffffffff = x % 4294967296 := by
  have hmask : (0xffffffff : Nat) = 2 ^ 32 - 1 := by norm_num
  have hpow : (4294967296 : Nat) = 2 ^ 32 := by norm_num
  rw [hmask, hpow]
  apply Nat.eq_of_testBit_eq
  intro i
  rw [Nat.testBit_and, Nat.testBit_two_pow_sub_one, Nat.testBit_mod_two_pow]
  exact Bool.and_comm _ _

/-- For `len < 2^32` the packed value is `2^32 * ptr + len`. -/
theorem toFatPtr_eq_mul_add (ptr len : Nat) (hlen : len < 4294967296) :
    toFatPtr ptr len = 4294967296 * ptr + len := by
  have hlen' : len < 2 ^ 32 := by norm_num at hlen ⊢; exact hlen
  have h := Nat.mul_add_lt_is_or hlen' ptr
  unfold toFatPtr
  rw [Nat.shiftLeft_eq, Nat.mul_comm ptr (2 ^ 32), ← h]

/-- **C1.** FatPtr packing is exact: for all 32-bit values `ptr` and `len`,
`toFatPtr` places `ptr` in the high 32 bits and `len` in the low 32 bits of one
64-bit value (the packed value is below `2^64`, its high word is `ptr` and its
low word is `len`), and `fromFatPtr (toFatPtr ptr len) = (ptr, len)`, so the
generated `fromFatPtr` / `toFatPtr` are exact mutual inverses over all 32-bit
`ptr`/`len` pairs. -/
theorem fatptr_pack_unpack_exact (ptr len : Nat)
    (hptr : ptr < 4294967296) (hlen : len < 4294967296) :
    fromFatPtr (toFatPtr ptr len) = (ptr, len) ∧
    toFatPtr ptr len < 18446744073709551616 ∧
    toFatPtr ptr len / 4294967296 = ptr ∧
    toFatPtr ptr len % 4294967296 = len := by
  have hpack := toFatPtr_eq_mul_add ptr len hlen
  have hhigh : toFatPtr ptr len >>> 32 = ptr := by
    rw [Nat.shiftRight_eq_div_pow, hpack]
    have h32 : (2 : Nat) ^ 32 = 4294967296 := by norm_num
    rw [h32]
    omega
  have hlow : toFatPtr ptr len &&& 0xffffffff = len := by
    rw [and_mask32_eq_mod, hpack]
    omega
  refine ⟨?_, ?_, ?_, ?_⟩
  · unfold fromFatPtr
    rw [hhigh, hlow]
  · rw [hpack]; omega
  · rw [hpack]; omega
  · rw [hpack]; omega

/-- Witness for C1 at a concrete input. -/
theorem fatptr_pack_unpack_exact_witness :
    fromFatPtr (toFatPtr 305419896 2596069104) = (305419896, 2596069104) :=
  (fatptr_pack_unpack_exact 305419896 2596069104 (by norm_num) (by norm_num)).1

/-! ## The type IR

The `Type` enum is declared in `src/types.rs`, which is not under `src/`; its
variant set and the payload of every variant are fully determined by the
pattern matches in `ts_runtime/mod.rs` (e.g. `format_type`, lines 596-630) and
by spec §3.  `Variant`, `Field` and `GenericArgument` structs (a name plus a
type / optional type, §3) are embedded as pairs.  The `Primitive` enum
(`src/primitives.rs`, not under `src/`) has exactly the thirteen variants
matched in `format_primitive` (ts_runtime/mod.rs lines 633-650). -/

/-- The `Primitive` kinds, exactly the ones matched by `format_primitive`. -/
inductive Primitive where
  | Bool | F32 | F64
  | I8 | I16 | I32 | I64 | I128
  | U8 | U16 | U32 | U64 | U128
  deriving DecidableEq, Repr

/-- Modelled from the spec: `CustomType` (§3 "custom escape-hatch types",
declared in `src/types.rs` which is not under `src/`): per-target literal type
strings; only the TypeScript one (`ts_ty`, used at ts_runtime/mod.rs line 606)
matters here. -/
structure CustomType where
  name : String
  ts_ty : String
  deriving DecidableEq, Repr

/-- Modelled from the spec: the casing conventions of the Casing Engine
(§4.1): "convention ∈ {as-declared, camel-case, pascal-case, snake-case,
screaming-snake-case}".  `src/casing.rs` is not under `src/`. -/
inductive Casing where
  | AsDeclared | CamelCase | PascalCase | SnakeCase | ScreamingSnakeCase
  deriving DecidableEq, Repr

/-- `EnumOptions` (§3): variant-name casing convention, optional tag-property
name, optional content-property name, "untagged" flag.  Field set as used by
`create_enum_definition` (ts_runtime/mod.rs lines 448-541). -/
structure EnumOptions where
  variant_casing : Casing
  tag_prop_name : Option String
  content_prop_name : Option String
  untagged : Bool
  deriving DecidableEq, Repr

/-- The `Type` IR (spec §3; variant payloads as matched throughout
`ts_runtime/mod.rs`).  Structs `GenericArgument` (name, optional type),
`Variant` (name, type) and `Field` (name, type) are embedded as pairs. -/
inductive Ty where
  | Alias (name : String) (ty : Ty)
  | Container (name : String) (ty : Ty)
  | Custom (custom : CustomType)
  | Enum (name : String) (generic_args : List (String × Option Ty))
         (variants : List (String × Ty)) (opts : EnumOptions)
  | GenericArgument (name : String) (ty : Option Ty)
  | List (name : String) (ty : Ty)
  | Map (name : String) (key : Ty) (value : Ty)
  | Primitive (p : Primitive)
  | String
  | Struct (name : String) (generic_args : List (String × Option Ty))
           (fields : List (String × Ty))
  | Tuple (items : List Ty)
  | Unit

/-- A `Variant` of an enum: name plus payload type (§3). -/
abbrev Variant := String × Ty

/-- A struct `Field`: name plus type (§3). -/
abbrev Field := String × Ty

/-- Name of a field/variant pair. -/
def pairName (f : String × Ty) : String := f.1

/-- Type of a field/variant pair. -/
def pairTy (f : String × Ty) : Ty := f.2

/-! ## Casing engine (modelled)

`src/casing.rs` and the `Inflector` dependency (providing `to_camel_case`) are
not under `src/`.  The transforms below are modelled from the spec (§4.1):
pure, total, deterministic transforms of identifiers.  The claims proved with
them (C6) depend only on both serialization sides invoking the *same*
transform, not on the particular character-level algorithm. -/

/-- Uppercase the first character. -/
def capitalize (s : String) : String :=
  match s.data with
  | [] => ""
  | c :: cs => String.mk (c.toUpper :: cs)

/-- Lowercase the first character. -/
def decapitalize (s : String) : String :=
  match s.data with
  | [] => ""
  | c :: cs => String.mk (c.toLower :: cs)

/-- Modelled from the spec: the camel-case transform (§4.1), as used by
`Inflector::to_camel_case` at ts_runtime/mod.rs line 585 and elsewhere:
`"foo_bar" ↦ "fooBar"`. -/
def to_camel_case (s : String) : String :=
  match s.splitOn "_" with
  | [] => ""
  | w :: ws => decapitalize w ++ String.join (ws.map capitalize)

/-- Modelled from the spec: the pascal-case transform (§4.1). -/
def to_pascal_case (s : String) : String :=
  String.join ((s.splitOn "_").map capitalize)

/-- Modelled from the spec: the snake-case transform (§4.1). -/
def to_snake_case (s : String) : String :=
  String.mk (s.data.foldl
    (fun acc c =>
      if c.isUpper && !acc.isEmpty then acc ++ ['_', c.toLower]
      else acc ++ [c.toLower])
    [])

/-- Modelled from the spec: `Casing::format_string` (§4.1): apply the chosen
convention to an identifier. -/
def Casing.format_string : Casing → String → String
  | .AsDeclared, s => s
  | .CamelCase, s => to_camel_case s
  | .PascalCase, s => to_pascal_case s
  | .SnakeCase, s => to_snake_case s
  | .ScreamingSnakeCase, s => (to_snake_case s).toUpper

/-! ## TypeScript formatting layer (ts_runtime/mod.rs lines 558-650) -/

/-- `format_primitive` (ts_runtime/mod.rs lines 633-650). -/
def format_primitive (primitive : Primitive) : String :=
  match primitive with
  | .Bool => "boolean"
  | .F32 => "number"
  | .F64 => "number"
  | .I8 => "number"
  | .I16 => "number"
  | .I32 => "number"
  | .I64 => "bigint"
  | .I128 => "bigint"
  | .U8 => "number"
  | .U16 => "number"
  | .U32 => "number"
  | .U64 => "bigint"
  | .U128 => "bigint"

/-- Modelled from the spec: the language-neutral name of a primitive
(`src/primitives.rs`, not under `src/`; §3 names the kinds). -/
def Primitive.rustName : Primitive → String
  | .Bool => "bool"
  | .F32 => "f32"
  | .F64 => "f64"
  | .I8 => "i8"
  | .I16 => "i16"
  | .I32 => "i32"
  | .I64 => "i64"
  | .I128 => "i128"
  | .U8 => "u8"
  | .U16 => "u16"
  | .U32 => "u32"
  | .U64 => "u64"
  | .U128 => "u128"

/-- Abbreviation so that `String` stays unambiguous inside the `Ty` namespace
(where `Ty.String` is a constructor). -/
abbrev Str := String

/-- Modelled from the spec: `Type::name` (`src/types.rs`, not under `src/`),
used only for the items of a `Tuple` at ts_runtime/mod.rs line 625: the
declared name of a type (§3: a `TypeIdent` is "a name plus zero or more
generic arguments"). -/
def Ty.name : Ty → Str
  | .Alias n _ => n
  | .Container n _ => n
  | .Custom c => c.name
  | .Enum n _ _ _ => n
  | .GenericArgument n _ => n
  | .List n _ => n
  | .Map n _ _ => n
  | .Primitive p => p.rustName
  | .String => "String"
  | .Struct n _ _ => n
  | .Tuple _ => "Tuple"
  | .Unit => "()"

/-- The special case check at ts_runtime/mod.rs line 610:
`ty.as_ref() == &Type::Primitive(Primitive::U8)`. -/
def isU8 : Ty → Bool
  | .Primitive .U8 => true
  | _ => false

mutual

/-- `format_type` (ts_runtime/mod.rs lines 596-630): formats a type so it is
valid TypeScript.  The `Enum`/`Struct` branches inline
`format_name_with_types` (lines 558-575); see `format_name_with_types` below,
equal to the inlined text by `rfl`. -/
def format_type : Ty → String
  | .Alias name _ => name
  | .Container name ty =>
      if name = "Option" then format_type ty ++ " | null" else format_type ty
  | .Custom custom => custom.ts_ty
  | .Enum name generic_args _ _ =>
      if generic_args.isEmpty then name
      else name ++ "<" ++ String.intercalate ", " (format_generic_list generic_args) ++ ">"
  | .GenericArgument name _ => name
  | .List _ ty =>
      if isU8 ty then "ArrayBuffer" else "Array<" ++ format_type ty ++ ">"
  | .Map _ k v => "Record<" ++ format_type k ++ ", " ++ format_type v ++ ">"
  | .Primitive primitive => format_primitive primitive
  | .String => "string"
  | .Struct name generic_args _ =>
      if generic_args.isEmpty then name
      else name ++ "<" ++ String.intercalate ", " (format_generic_list generic_args) ++ ">"
  | .Tuple items => "[" ++ String.intercalate ", " (items.map Ty.name) ++ "]"
  | .Unit => "void"

/-- The per-argument mapping inside `format_name_with_types`
(ts_runtime/mod.rs lines 566-570): `Some(ty) => format_type(ty),
None => arg.name`. -/
def format_generic_list : List (String × Option Ty) → List String
  | [] => []
  | (_, some ty) :: rest => format_type ty :: format_generic_list rest
  | (n, none) :: rest => n :: format_generic_list rest

end

/-- `format_name_with_types` (ts_runtime/mod.rs lines 558-575). -/
def format_name_with_types (name : String) (generic_args : List (String × Option Ty)) :
    String :=
  if generic_args.isEmpty then name
  else name ++ "<" ++ String.intercalate ", " (format_generic_list generic_args) ++ ">"

/-- The inlining in `format_type` agrees with `format_name_with_types`. -/
theorem format_type_enum_eq (name : String) (gas : List (String × Option Ty))
    (vs : List Variant) (opts : EnumOptions) :
    format_type (.Enum name gas vs opts) = format_name_with_types name gas := by
  simp [format_type, format_name_with_types]

/-- One line of `format_struct_fields` (ts_runtime/mod.rs lines 577-593): the
wire key is `field.name.to_camel_case()` in both branches; a `Container` named
`Option` adds a `?` marker and formats the inner type. -/
def format_struct_field (field : Field) : String :=
  match pairTy field with
  | .Container name ty =>
      to_camel_case (pairName field) ++ (if name = "Option" then "?" else "")
        ++ ": " ++ format_type ty
  | ty => to_camel_case (pairName field) ++ ": " ++ format_type ty

/-- `format_struct_fields` (ts_runtime/mod.rs lines 577-593). -/
def format_struct_fields (fields : List Field) : List String :=
  fields.map format_struct_field

/-! ## Enum definition generation (ts_runtime/mod.rs lines 448-541)

`create_enum_definition` maps every variant to one union member.  The Rust
code `panic!`s on any variant payload other than `Unit`, a `Struct`, or a
`Tuple` with exactly one item (`other => panic!("Unsupported type for enum
variant: {:?}", other)`, line 530); a panic aborts generation with no output,
embedded as `Except.error`. -/

/-- Modelled from the spec: `format_name_with_generics` (`src/types.rs`, not
under `src/`), used at ts_runtime/mod.rs line 538: renders the declared name
with its generic-argument names (§3). -/
def format_name_with_generics (name : String) (generic_args : List (String × Option Ty)) :
    String :=
  if generic_args.isEmpty then name
  else name ++ "<" ++ String.intercalate ", " (generic_args.map (fun a => a.1)) ++ ">"

/-- One variant of `create_enum_definition` (ts_runtime/mod.rs lines 455-531):
the union member emitted for one enum variant, or the fatal
unsupported-schema error (`panic!`, line 530). -/
def create_enum_variant (opts : EnumOptions) (variant : Variant) :
    Except String String :=
  let variant_name := opts.variant_casing.format_string (pairName variant)
  match pairTy variant with
  | .Unit =>
      match opts.tag_prop_name with
      | some tag => .ok ("    | \x7b " ++ tag ++ ": \"" ++ variant_name ++ "\" \x7d")
      | none => .ok ("    | \"" ++ variant_name ++ "\"")
  | .Struct _ _ fields =>
      if opts.untagged then
        .ok ("    | \x7b " ++ String.intercalate "; " (format_struct_fields fields) ++ " \x7d")
      else
        match opts.tag_prop_name, opts.content_prop_name with
        | some tag, some content =>
            .ok ("    | \x7b " ++ tag ++ ": \"" ++ variant_name ++ "\"; " ++ content
              ++ ": \x7b " ++ String.intercalate "; " (format_struct_fields fields) ++ " \x7d \x7d")
        | some tag, none =>
            .ok ("    | \x7b " ++ tag ++ ": \"" ++ variant_name ++ "\"; "
              ++ String.intercalate "; " (format_struct_fields fields) ++ " \x7d")
        | none, _ =>
            .ok ("    | \x7b " ++ variant_name ++ ": \x7b "
              ++ String.intercalate "; " (format_struct_fields fields) ++ " \x7d \x7d")
  | .Tuple [item] =>
      if opts.untagged then
        .ok ("    | " ++ format_type item)
      else
        match opts.tag_prop_name, opts.content_prop_name with
        | some tag, some content =>
            .ok ("    | \x7b " ++ tag ++ ": \"" ++ variant_name ++ "\"; " ++ content
              ++ ": " ++ format_type item ++ " \x7d")
        | some tag, none =>
            .ok ("    | \x7b " ++ tag ++ ": \"" ++ variant_name ++ "\" \x7d & "
              ++ format_type item)
        | none, _ =>
            .ok ("    | \x7b " ++ variant_name ++ ": " ++ format_type item ++ " \x7d")
  | _ => .error "Unsupported type for enum variant"

/-- Sequentially format all variants; the first `panic!` aborts the whole
generation (the Rust iterator is driven to completion only when every variant
formats). -/
def collect_variants (opts : EnumOptions) : List Variant → Except String (List String)
  | [] => .ok []
  | v :: vs =>
      match create_enum_variant opts v with
      | .error e => .error e
      | .ok s =>
          match collect_variants opts vs with
          | .error e => .error e
          | .ok ss => .ok (s :: ss)

/-- `create_enum_definition` (ts_runtime/mod.rs lines 448-541). -/
def create_enum_definition (name : String) (generic_args : List (String × Option Ty))
    (variants : List Variant) (opts : EnumOptions) : Except String String :=
  match collect_variants opts variants with
  | .error e => .error e
  | .ok lines =>
      .ok ("export type " ++ format_name_with_generics name generic_args ++ " =\n"
        ++ String.intercalate "\n" lines ++ ";")

/-- The payload shapes `create_enum_definition` supports: `Unit`, a `Struct`,
or a `Tuple` with exactly one item. -/
def variantShapeSupported (variant : Variant) : Bool :=
  match pairTy variant with
  | .Unit => true
  | .Struct _ _ _ => true
  | .Tuple [_] => true
  | _ => false

/-! ## Boundary (wire) signatures

Dynamic host: `format_import_wrappers` (ts_runtime/mod.rs lines 221-331)
gives every wrapper its wire-level signature: a `Type::Primitive` argument is
passed by value with its TypeScript type (`format_primitive`), every other
argument is passed as `{name}_ptr: FatPtr` (lines 229-236); the return type is
absent for `Unit`, the primitive TypeScript type for a primitive, and `FatPtr`
otherwise (lines 239-243). -/

/-- The wire-level TypeScript type of one wrapper argument
(ts_runtime/mod.rs lines 229-236). -/
def tsWireArgTy : Ty → String
  | .Primitive primitive => format_primitive primitive
  | _ => "FatPtr"

/-- The wire-level TypeScript return clause of a wrapper
(ts_runtime/mod.rs lines 239-243). -/
def tsWireReturnTy : Ty → String
  | .Unit => ""
  | .Primitive primitive => ": " ++ format_primitive primitive
  | _ => ": FatPtr"

/-- Is a `Ty` the `Primitive` variant? -/
def Ty.isPrimitiveTy : Ty → Bool
  | .Primitive _ => true
  | _ => false

/-! Native host: `format_wasm_ident` (rust_wasmer_runtime/mod.rs lines 55-61)
maps a `TypeIdent` to its wire type: primitives go by value through
`<T as WasmAbi>::AbiType`, everything else is a `FatPtr`. -/

/-- Modelled from the spec: `TypeIdent` (§3: "a name plus zero or more generic
arguments"; `src/types.rs` is not under `src/`). -/
inductive TypeIdent where
  | mk (name : String) (generic_args : List TypeIdent)

/-- The name of a `TypeIdent`. -/
def TypeIdent.name : TypeIdent → Str
  | .mk n _ => n

/-- Modelled from the spec: `TypeIdent::is_primitive` (not under `src/`);
§3 lists the primitive kinds: boolean, 32/64-bit floats, signed/unsigned
integers 8-128 bit. -/
def TypeIdent.is_primitive (ty : TypeIdent) : Bool :=
  ty.name ∈ ["bool", "f32", "f64", "i8", "i16", "i32", "i64", "i128",
             "u8", "u16", "u32", "u64", "u128"]

/-- `format_wasm_ident` (rust_wasmer_runtime/mod.rs lines 55-61). -/
def format_wasm_ident (ty : TypeIdent) : String :=
  if ty.is_primitive then "<" ++ ty.name ++ " as WasmAbi>::AbiType"
  else "FatPtr"

/-! ## The emitted dynamic-host runtime (ts_runtime/mod.rs lines 70-159)

The generator emits this TypeScript verbatim; the definitions below embed its
behaviour.

### The asynchronous-result record

```ts
function createAsyncValue(): FatPtr {
    const len = 12; // std::mem::size_of::<AsyncValue>()
    const fatPtr = malloc(len);
    const [ptr] = fromFatPtr(fatPtr);
    const buffer = new Uint8Array(memory.buffer, ptr, len);
    buffer.fill(0);
    return fatPtr;
}

function assignAsyncValue<T>(fatPtr: FatPtr, result: T) {
    const [ptr, len] = fromFatPtr(fatPtr);
    const buffer = new Uint32Array(memory.buffer, ptr, len / 4);
    const [resultPtr, resultLen] = fromFatPtr(serializeObject(result));
    buffer[1] = resultPtr;
    buffer[2] = resultLen;
    buffer[0] = 1; // Set status to ready.
}
```
-/

/-- The three 32-bit fields of the asynchronous-result record, read as the
`Uint32Array` words 0 (`status`), 1 (`result_ptr`) and 2 (`result_len`). -/
structure AsyncRecord where
  status : Nat
  resultPtr : Nat
  resultLen : Nat
  deriving DecidableEq, Repr

/-- The byte length allocated by `createAsyncValue` (line 86): `const len = 12`. -/
def asyncValueByteLen : Nat := 12

/-- Little-endian 32-bit word at byte offset `i` of a byte buffer. -/
def readWord32 (bytes : List Nat) (i : Nat) : Nat :=
  bytes.getD i 0 + 256 * bytes.getD (i + 1) 0
    + 65536 * bytes.getD (i + 2) 0 + 16777216 * bytes.getD (i + 3) 0

/-- The record seen through the `Uint32Array` view of a 12-byte buffer:
words at byte offsets 0, 4 and 8. -/
def recordOfBytes (bytes : List Nat) : AsyncRecord :=
  ⟨readWord32 bytes 0, readWord32 bytes 4, readWord32 bytes 8⟩

/-- The buffer produced by `createAsyncValue`: 12 bytes, `buffer.fill(0)`. -/
def createdAsyncBytes : List Nat := List.replicate asyncValueByteLen 0

/-- The record created by `createAsyncValue`. -/
def createdAsyncRecord : AsyncRecord := recordOfBytes createdAsyncBytes

/-- The sequence of `Uint32Array` stores performed by `assignAsyncValue`
(lines 80-82), in program order: word index paired with stored value.
`resultPtr`/`resultLen` come from `fromFatPtr(serializeObject(result))`,
computed before any store. -/
def assignAsyncWrites (resultPtr resultLen : Nat) : List (Nat × Nat) :=
  [(1, resultPtr), (2, resultLen), (0, 1)]

/-- Apply one word store to the record view. -/
def applyWordWrite (r : AsyncRecord) : Nat × Nat → AsyncRecord
  | (0, v) => { r with status := v }
  | (1, v) => { r with resultPtr := v }
  | (2, v) => { r with resultLen := v }
  | _ => r

/-- Apply a sequence of word stores in order. -/
def applyWordWrites (r : AsyncRecord) (ws : List (Nat × Nat)) : AsyncRecord :=
  ws.foldl applyWordWrite r

/-! ### The promise registry and `resolvePromise`

```ts
const promises = new Map<FatPtr, (result: unknown) => void>();

function promiseFromPtr<T>(ptr: FatPtr): Promise<T> {
    return new Promise<T>((resolve) => {
        promises.set(ptr, resolve as (result: unknown) => void);
    });
}

function parseObject<T>(fatPtr: FatPtr): T {
    const buffer = ...;
    const object = decode<T>(buffer) as T;
    free(fatPtr);
    return object;
}

function resolvePromise(ptr: FatPtr) {
    const resolve = promises.get(ptr);
    if (resolve) {
        const [asyncPtr, asyncLen] = fromFatPtr(ptr);
        const buffer = new Uint32Array(memory.buffer, asyncPtr, asyncLen / 4);
        switch (buffer[0]) {
            case 0:
                throw new FPRuntimeError("Tried to resolve promise that is not ready");
            case 1:
                resolve(parseObject(toFatPtr(buffer[1]!, buffer[2]!)));
                break;
            default:
                throw new FPRuntimeError("Unexpected status: " + buffer[0]);
        }
    } else {
        throw new FPRuntimeError("Tried to resolve unknown promise");
    }
}
```

State embedding: `promises` is the set of registered handles (the stored
`resolve` callbacks are abstracted to the handle key); the guest memory is
abstracted to the association of each handle with the `AsyncRecord` its
`Uint32Array` view reads; `freed` records every fat pointer passed to `free`
(by `parseObject`), in order; `fulfilled` records every delivered resolution
`(handle, result fat pointer)`, in order. -/

/-- The `FPRuntimeError` values thrown by the emitted runtime, one constructor
per distinct `throw new FPRuntimeError(...)` site. -/
inductive RuntimeErr where
  /-- "Tried to resolve promise that is not ready" (line 115). -/
  | promiseNotReady
  /-- "Unexpected status: ..." (line 120). -/
  | unexpectedStatus (status : Nat)
  /-- "Tried to resolve unknown promise" (line 123). -/
  | unknownPromise
  /-- "Plugin did not export expected symbol: ..." (line 146). -/
  | symbolNotExported (name : String)
  deriving DecidableEq, Repr

/-- The observable state of the emitted dynamic-host runtime. -/
structure HostState where
  promises : List Nat
  records : List (Nat × AsyncRecord)
  freed : List Nat
  fulfilled : List (Nat × Nat)
  deriving DecidableEq, Repr

/-- The `Uint32Array` view of the async record at a handle (reading memory
that holds no record yields unspecified bytes, fixed here to zeros). -/
def lookupRecord (records : List (Nat × AsyncRecord)) (p : Nat) : AsyncRecord :=
  match records.lookup p with
  | some r => r
  | none => ⟨0, 0, 0⟩

/-- `promiseFromPtr` (lines 102-106): registers the handle in `promises`. -/
def promiseFromPtr (s : HostState) (p : Nat) : HostState :=
  { s with promises := s.promises ++ [p] }

/-- `parseObject` (lines 94-100): decodes the buffer then `free(fatPtr)`. -/
def parseObject (s : HostState) (fatPtr : Nat) : HostState :=
  { s with freed := s.freed ++ [fatPtr] }

/-- `resolvePromise` (lines 108-125).  Note: the handle is *not* removed from
`promises` and the record's `status` is left untouched. -/
def resolvePromise (s : HostState) (p : Nat) : Except RuntimeErr HostState :=
  if s.promises.contains p then
    let r := lookupRecord s.records p
    match r.status with
    | 0 => .error .promiseNotReady
    | 1 =>
        let resultFat := toFatPtr r.resultPtr r.resultLen
        let s1 := parseObject s resultFat
        .ok { s1 with fulfilled := s1.fulfilled ++ [(p, resultFat)] }
    | other => .error (.unexpectedStatus other)
  else .error .unknownPromise

/-! ### Export lookups (ts_runtime/mod.rs lines 143-154, 356-417;
rust_wasmer_runtime/mod.rs lines 221-228) -/

/-- `getExport` (lines 143-149): absent export throws `FPRuntimeError`
("Plugin did not export expected symbol").  Used for the fixed well-known
symbols `memory`, `__fp_malloc`, `__fp_free`,
`__fp_guest_resolve_async_value` (lines 151-154). -/
def getExport (exports : List (String × α)) (name : String) : Except RuntimeErr α :=
  match exports.lookup name with
  | some v => .ok v
  | none => .error (.symbolNotExported name)

/-- The per-function export lookup of `format_export_wrappers` (lines 404-414
and the trivial path, lines 358-363): `const export_fn =
instance.exports.__fp_gen_{name} as any; if (!export_fn) return;` — an absent
export makes the emitted property `undefined` (`none`); no error is ever
thrown, hence the result is always `Except.ok`. -/
def tsExportWrapper (exports : List (String × α)) (fnName : String) :
    Except RuntimeErr (Option α) :=
  .ok (exports.lookup ("__fp_gen_" ++ fnName))

/-- The `InvocationError` variants of the native host runtime surfaced by the
generated bindings (rust_wasmer_runtime/mod.rs line 225). -/
inductive InvocationError where
  | FunctionNotExported (name : String)
  deriving DecidableEq, Repr

/-- The per-function export lookup in `format_import_function`
(rust_wasmer_runtime/mod.rs lines 221-228): `get_typed_function(...,
"__fp_gen_{name}").map_err(|_|
InvocationError::FunctionNotExported("__fp_gen_{name}"))`. -/
def rustGetTypedFunction (exports : List (String × α)) (fnName : String) :
    Except InvocationError α :=
  match exports.lookup ("__fp_gen_" ++ fnName) with
  | some f => .ok f
  | none => .error (.FunctionNotExported ("__fp_gen_" ++ fnName))

/-! ## Asynchronous import wrappers (ts_runtime/mod.rs lines 263-299)

For an asynchronous import the generator emits:

```ts
__fp_gen_{name}: (args){ret} => {
    ...parse args...
    const _async_result_ptr = createAsyncValue();
    importFunctions.{name}(args)
        .then((result) => {{assign}
            resolveFuture(_async_result_ptr);
        })
        .catch((error) => {
            console.error(
                'Unrecoverable exception trying to call async host function "{name}"',
                error
            );
        });
    return _async_result_ptr;
},
```

where `{assign}` is chosen by (lines 264-267):

```rust
let assign_async_value = match &function.return_type {
    Type::Unit => "",
    _ => "\n            assignAsyncValue(_async_result_ptr, result);",
};
```
-/

/-- The `assign_async_value` snippet selection (lines 264-267). -/
def assignAsyncValueSnippet : Ty → String
  | .Unit => ""
  | _ => "\n            assignAsyncValue(_async_result_ptr, result);"

/-- One observable action of the generated asynchronous import wrapper. -/
inductive HostEvent where
  /-- A call `assignAsyncValue(_async_result_ptr, result)`. -/
  | assignAsync (handle : Nat)
  /-- A call `resolveFuture(_async_result_ptr)`
  (`__fp_guest_resolve_async_value`). -/
  | resolveFuture (handle : Nat)
  /-- A `console.error(...)` log. -/
  | consoleError
  deriving DecidableEq, Repr

/-- The actions of the `.then` continuation (lines 273-275), in order, as a
function of the declared return type: `assignAsyncValue` only when the return
type is not `Unit` (mirroring `assign_async_value` above), then
`resolveFuture`. -/
def asyncThenEvents (returnTy : Ty) (handle : Nat) : List HostEvent :=
  (match returnTy with
   | .Unit => []
   | _ => [HostEvent.assignAsync handle]) ++ [HostEvent.resolveFuture handle]

/-- The actions of the `.catch` continuation (lines 276-281): only a
`console.error` log, for every return type. -/
def asyncCatchEvents (_returnTy : Ty) : List HostEvent :=
  [HostEvent.consoleError]

/-- Effect of one wrapper action on the async record (the serialized result
is at `(resultPtr, resultLen)`): `assignAsyncValue` stores the result fields
and sets `status` to 1; `resolveFuture` and `console.error` do not write the
record. -/
def applyHostEvent (resultPtr resultLen : Nat) (r : AsyncRecord) : HostEvent → AsyncRecord
  | .assignAsync _ =>
      applyWordWrites r (assignAsyncWrites resultPtr resultLen)
  | _ => r

/-- Effect of a sequence of wrapper actions on the async record. -/
def applyHostEvents (resultPtr resultLen : Nat) (r : AsyncRecord)
    (events : List HostEvent) : AsyncRecord :=
  events.foldl (applyHostEvent resultPtr resultLen) r

/-! ## Claim theorems -/

/-- **C2.** In every generator's boundary (wire) signature, a primitive type
crosses the call boundary by value in the target's native representation for
its bit width (`format_primitive` for the dynamic host, `<T as
WasmAbi>::AbiType` for the native host), and every non-primitive type crosses
as a `FatPtr` handle: this holds uniformly for all `Ty` variants in the
dynamic-host wrapper signatures (`tsWireArgTy` / `tsWireReturnTy`, where a
`Unit` return crosses as nothing) and for all `TypeIdent`s in
`format_wasm_ident` of the native host generator. -/
theorem boundary_signature_uniform :
    (∀ ty : Ty,
      (∀ p, ty = .Primitive p → tsWireArgTy ty = format_primitive p)
      ∧ (ty.isPrimitiveTy = false → tsWireArgTy ty = "FatPtr"))
    ∧ (∀ ty : Ty,
      (∀ p, ty = .Primitive p → tsWireReturnTy ty = ": " ++ format_primitive p)
      ∧ (ty ≠ .Unit → ty.isPrimitiveTy = false → tsWireReturnTy ty = ": FatPtr"))
    ∧ (∀ ti : TypeIdent,
      (ti.is_primitive = true →
        format_wasm_ident ti = "<" ++ ti.name ++ " as WasmAbi>::AbiType")
      ∧ (ti.is_primitive = false → format_wasm_ident ti = "FatPtr")) := by
  refine ⟨?_, ?_, ?_⟩
  · intro ty
    cases ty <;> simp [tsWireArgTy, Ty.isPrimitiveTy]
  · intro ty
    cases ty <;> simp [tsWireReturnTy, Ty.isPrimitiveTy]
  · intro ti
    constructor <;> intro h <;> simp [format_wasm_ident, h]

/-- Witness for C2: a non-primitive type (`String`) crosses as `FatPtr` in
both hosts, and a primitive (`I32`) crosses by value. -/
theorem boundary_signature_uniform_witness :
    tsWireArgTy .String = "FatPtr"
    ∧ tsWireReturnTy .String = ": FatPtr"
    ∧ tsWireArgTy (.Primitive .I32) = format_primitive .I32
    ∧ format_wasm_ident (.mk "String" []) = "FatPtr" :=
  ⟨(boundary_signature_uniform.1 .String).2 rfl,
   (boundary_signature_uniform.2.1 .String).2 (by intro h; cases h) rfl,
   (boundary_signature_uniform.1 (.Primitive .I32)).1 .I32 rfl,
   (boundary_signature_uniform.2.2 (.mk "String" [])).2 (by decide)⟩

/-- **C4.** Invoking `resolvePromise` on a handle that is not in the promise
registry, or whose `status` field is still 0 (pending), raises an explicit
runtime error — and the two errors are distinct; it never silently returns or
fulfills. -/
theorem resolve_unknown_or_pending_is_error (s : HostState) (p : Nat) :
    (s.promises.contains p = false →
      resolvePromise s p = .error .unknownPromise)
    ∧ (s.promises.contains p = true → (lookupRecord s.records p).status = 0 →
      resolvePromise s p = .error .promiseNotReady)
    ∧ RuntimeErr.unknownPromise ≠ RuntimeErr.promiseNotReady := by
  refine ⟨?_, ?_, by decide⟩
  · intro h
    unfold resolvePromise
    rw [h]
    simp
  · intro h hst
    unfold resolvePromise
    rw [h]
    simp [hst]

/-- Witness for C4: handle 3 is unknown; handle 7 is registered but pending. -/
theorem resolve_unknown_or_pending_is_error_witness :
    resolvePromise ⟨[7], [(7, ⟨0, 0, 0⟩)], [], []⟩ 3 = .error .unknownPromise
    ∧ resolvePromise ⟨[7], [(7, ⟨0, 0, 0⟩)], [], []⟩ 7 = .error .promiseNotReady :=
  ⟨(resolve_unknown_or_pending_is_error ⟨[7], [(7, ⟨0, 0, 0⟩)], [], []⟩ 3).1 (by decide),
   (resolve_unknown_or_pending_is_error ⟨[7], [(7, ⟨0, 0, 0⟩)], [], []⟩ 7).2.1
     (by decide) (by decide)⟩

/-- **C5.** The asynchronous-result record is exactly 12 bytes laid out as
three consecutive 32-bit fields, created with all bytes zero (`status = 0`);
`assignAsyncValue` writes `result_ptr` and `result_len` before it sets
`status` to 1, so after any program-order prefix (`List.take k`) of its
stores in which `status = 1`, the result pointer and length have already been
recorded. -/
theorem async_record_layout_and_write_order (resultPtr resultLen k : Nat)
    (hready : (applyWordWrites createdAsyncRecord
      (List.take k (assignAsyncWrites resultPtr resultLen))).status = 1) :
    asyncValueByteLen = 12 ∧ asyncValueByteLen / 4 = 3
    ∧ createdAsyncRecord = ⟨0, 0, 0⟩
    ∧ (applyWordWrites createdAsyncRecord
        (List.take k (assignAsyncWrites resultPtr resultLen))).resultPtr = resultPtr
    ∧ (applyWordWrites createdAsyncRecord
        (List.take k (assignAsyncWrites resultPtr resultLen))).resultLen = resultLen := by
  have hcreated : createdAsyncRecord = ⟨0, 0, 0⟩ := rfl
  refine ⟨rfl, rfl, hcreated, ?_, ?_⟩ <;>
  · match k with
    | 0 =>
        rw [hcreated] at hready
        simp [applyWordWrites, assignAsyncWrites, applyWordWrite] at hready
    | 1 =>
        rw [hcreated] at hready
        simp [applyWordWrites, assignAsyncWrites, applyWordWrite, List.take] at hready
    | 2 =>
        rw [hcreated] at hready
        simp [applyWordWrites, assignAsyncWrites, applyWordWrite, List.take] at hready
    | n + 3 =>
        rw [hcreated]
        simp [applyWordWrites, assignAsyncWrites, applyWordWrite, List.take]

/-- Witness for C5 after the full store sequence. -/
theorem async_record_layout_and_write_order_witness :
    (applyWordWrites createdAsyncRecord
      (List.take 3 (assignAsyncWrites 500 16))).resultPtr = 500
    ∧ (applyWordWrites createdAsyncRecord
      (List.take 3 (assignAsyncWrites 500 16))).resultLen = 16 :=
  ⟨(async_record_layout_and_write_order 500 16 3 (by decide)).2.2.2.1,
   (async_record_layout_and_write_order 500 16 3 (by decide)).2.2.2.2⟩

/-- **C3 (code bug).** A second invocation of `resolvePromise` on the same
handle is *not* rejected: `resolvePromise` removes nothing from the registry
and leaves `status = 1`, so the second call succeeds, delivers the result a
second time, and frees the result buffer a second time (a double free).  The
spec (§4.6, §5, §8) requires the pending promise to be fulfilled exactly once
and the second attempt to be rejected. -/
theorem double_resolve_not_rejected :
    ∃ s1 s2 : HostState,
      resolvePromise ⟨[100], [(100, ⟨1, 500, 16⟩)], [], []⟩ 100 = .ok s1
      ∧ resolvePromise s1 100 = .ok s2
      ∧ s2.freed = [toFatPtr 500 16, toFatPtr 500 16]
      ∧ s2.fulfilled = [(100, toFatPtr 500 16), (100, toFatPtr 500 16)] := by
  exact ⟨_, _, rfl, rfl, rfl, rfl⟩

/-! ### C6: wire keys across targets

The dynamic-host side is from the source: `format_struct_fields`
(ts_runtime/mod.rs lines 577-593) keys every field with
`field.name.to_camel_case()` in both of its branches, and
`create_enum_definition` (line 457) keys every variant with
`opts.variant_casing.format_string(&variant.name)`.  The serializing /
other decoding targets (the Rust plugin generator and the serialization
layer) are not under `src/`, so their wire keys are modelled from the spec
(§4.1, §6): the wire key for a given field or variant is produced by the same
casing transform on every target. -/

/-- The wire key the dynamic host uses for a struct field
(ts_runtime/mod.rs line 585/590). -/
def tsStructFieldKey (field : Field) : String :=
  to_camel_case (pairName field)

/-- The wire key the dynamic host uses for an enum variant
(ts_runtime/mod.rs line 457). -/
def tsVariantKey (opts : EnumOptions) (variant : Variant) : String :=
  opts.variant_casing.format_string (pairName variant)

/-- Modelled from the spec: the wire key every other (non-ts) target uses for
the same struct field (§4.1: "the chosen wire key for a given field or
variant must be identical regardless of which target consumes it"; §6); the
non-ts generators and the serialization annotations are not under `src/`. -/
def otherTargetFieldKey (field : Field) : String :=
  to_camel_case (pairName field)

/-- Modelled from the spec: the wire key every other (non-ts) target uses for
the same enum variant, produced by the same casing convention from the shared
`EnumOptions` (§4.1, §6). -/
def otherTargetVariantKey (opts : EnumOptions) (variant : Variant) : String :=
  opts.variant_casing.format_string (pairName variant)

/-- **C6.** For every struct field and enum variant of the same IR input, the
wire key emitted by the dynamic host equals the wire key expected by every
other target, and the key is exactly the leading part of the line emitted by
`format_struct_field`. -/
theorem wire_keys_identical_across_targets :
    (∀ field : Field, tsStructFieldKey field = otherTargetFieldKey field
      ∧ ∃ rest, format_struct_field field = tsStructFieldKey field ++ rest)
    ∧ (∀ (opts : EnumOptions) (variant : Variant),
        tsVariantKey opts variant = otherTargetVariantKey opts variant) := by
  constructor
  · intro field
    refine ⟨rfl, ?_⟩
    rcases field with ⟨n, ty⟩
    cases ty <;>
      simp [format_struct_field, tsStructFieldKey, pairName, pairTy,
        String.append_assoc]
  · intro opts variant
    rfl

/-! ### C8: missing guest exports -/

/-- Whether an `Except` computation succeeded. -/
def exceptIsOk : Except ε α → Bool
  | .ok _ => true
  | .error _ => false

/-- **C8 (amended).** A missing *fixed well-known* symbol makes `getExport`
raise the typed `FPRuntimeError` ("Plugin did not export expected symbol"),
and a missing per-function export in the *native* host yields
`InvocationError::FunctionNotExported`; but in the dynamic host a missing
per-function `__fp_gen_` export is permitted by design (the `Exports` type
declares every function optional): the generated wrapper property is
`undefined` (`none`) and no error is ever raised. -/
theorem missing_export_errors (α : Type) (exports : List (String × α))
    (name fnName : String) :
    (exports.lookup name = none →
      getExport exports name = .error (.symbolNotExported name))
    ∧ (exports.lookup ("__fp_gen_" ++ fnName) = none →
      rustGetTypedFunction exports fnName
        = .error (.FunctionNotExported ("__fp_gen_" ++ fnName)))
    ∧ tsExportWrapper exports fnName = .ok (exports.lookup ("__fp_gen_" ++ fnName)) := by
  refine ⟨?_, ?_, rfl⟩
  · intro h
    simp [getExport, h]
  · intro h
    simp [rustGetTypedFunction, h]

/-- Witness for C8 (amended) on an instance exporting nothing. -/
theorem missing_export_errors_witness :
    getExport ([] : List (String × Nat)) "memory"
      = .error (.symbolNotExported "memory")
    ∧ rustGetTypedFunction ([] : List (String × Nat)) "my_func"
      = .error (.FunctionNotExported ("__fp_gen_" ++ "my_func"))
    ∧ tsExportWrapper ([] : List (String × Nat)) "my_func" = .ok none :=
  ⟨(missing_export_errors Nat [] "memory" "my_func").1 rfl,
   (missing_export_errors Nat [] "memory" "my_func").2.1 rfl,
   (missing_export_errors Nat [] "memory" "my_func").2.2⟩

/-- **C8 (counterexample to the claim as stated).** In the dynamic host, the
lookup of the expected per-function guest export `__fp_gen_my_func` on a
plugin that does not export it yields `undefined` (`Except.ok none`) — it is
*not* the typed 'function not exported' error the claim requires for "every
per-function generated export". -/
theorem missing_export_silently_undefined :
    tsExportWrapper ([] : List (String × Nat)) "my_func" = .ok none := rfl

/-! ### C7: enum payload shapes -/

/-- `create_enum_variant` succeeds exactly on the supported payload shapes. -/
theorem create_enum_variant_ok_iff (opts : EnumOptions) (v : Variant) :
    exceptIsOk (create_enum_variant opts v) = variantShapeSupported v := by
  rcases v with ⟨n, ty⟩
  rcases opts with ⟨casing, tag, content, untg⟩
  rcases tag with _ | tg <;> rcases content with _ | ct <;> cases untg <;>
    cases ty <;>
    try simp [create_enum_variant, variantShapeSupported, pairTy, pairName, exceptIsOk]
  all_goals
    rename_i items
  all_goals
    rcases items with _ | ⟨a, _ | ⟨b, t⟩⟩ <;>
      simp [create_enum_variant, variantShapeSupported, pairTy, pairName, exceptIsOk]

/-- `collect_variants` succeeds exactly when every variant's shape is
supported (the first unsupported variant aborts generation). -/
theorem collect_variants_ok_iff (opts : EnumOptions) (l : List Variant) :
    exceptIsOk (collect_variants opts l) = l.all variantShapeSupported := by
  induction l with
  | nil => rfl
  | cons v vs ih =>
      have hv := create_enum_variant_ok_iff opts v
      cases hcv : create_enum_variant opts v with
      | error e =>
          rw [hcv] at hv
          simp only [exceptIsOk] at hv
          simp [collect_variants, hcv, exceptIsOk, List.all_cons, ← hv]
      | ok s =>
          rw [hcv] at hv
          simp only [exceptIsOk] at hv
          cases hcc : collect_variants opts vs with
          | error e =>
              rw [hcc] at ih
              simp only [exceptIsOk] at ih
              simp [collect_variants, hcv, hcc, exceptIsOk, List.all_cons, ← hv, ← ih]
          | ok ss =>
              rw [hcc] at ih
              simp only [exceptIsOk] at ih
              simp [collect_variants, hcv, hcc, exceptIsOk, List.all_cons, ← hv, ← ih]

/-- **C7.** `create_enum_definition` produces a definition exactly when every
variant payload is `Unit`, a `Struct`, or a `Tuple` with exactly one item; for
every other payload shape (in particular a `Tuple` with more than one item)
it raises the fatal unsupported-schema error and produces no partial
output. -/
theorem enum_definition_ok_or_fatal (name : String)
    (generic_args : List (String × Option Ty)) (variants : List Variant)
    (opts : EnumOptions) :
    (variants.all variantShapeSupported = true →
      ∃ s, create_enum_definition name generic_args variants opts = .ok s)
    ∧ (variants.all variantShapeSupported = false →
      ∃ e, create_enum_definition name generic_args variants opts = .error e) := by
  have h := collect_variants_ok_iff opts variants
  constructor
  · intro hall
    rw [hall] at h
    cases hc : collect_variants opts variants with
    | error e =>
        rw [hc] at h
        simp [exceptIsOk] at h
    | ok lines =>
        refine ⟨"export type " ++ format_name_with_generics name generic_args
          ++ " =\n" ++ String.intercalate "\n" lines ++ ";", ?_⟩
        unfold create_enum_definition
        rw [hc]
  · intro hall
    rw [hall] at h
    cases hc : collect_variants opts variants with
    | error e =>
        refine ⟨e, ?_⟩
        unfold create_enum_definition
        rw [hc]
    | ok lines =>
        rw [hc] at h
        simp [exceptIsOk] at h

/-- Witness for C7: a `Unit` variant generates; a two-item `Tuple` variant is
the fatal unsupported-schema error. -/
theorem enum_definition_ok_or_fatal_witness :
    exceptIsOk (create_enum_definition "Result" []
      [("Success", Ty.Unit)] ⟨Casing.PascalCase, none, none, false⟩) = true
    ∧ exceptIsOk (create_enum_definition "Bad" []
      [("Pair", Ty.Tuple [Ty.String, Ty.String])]
      ⟨Casing.PascalCase, none, none, false⟩) = false := by
  obtain ⟨s, hs⟩ := (enum_definition_ok_or_fatal "Result" []
    [("Success", Ty.Unit)] ⟨Casing.PascalCase, none, none, false⟩).1 (by decide)
  obtain ⟨e, he⟩ := (enum_definition_ok_or_fatal "Bad" []
    [("Pair", Ty.Tuple [Ty.String, Ty.String])]
    ⟨Casing.PascalCase, none, none, false⟩).2 (by decide)
  rw [hs, he]
  exact ⟨rfl, rfl⟩

/-! ### C9 and C10: asynchronous import wrappers -/

/-- **C9.** For an asynchronous import whose return type is `Unit`, the
generated wrapper's success path never calls `assignAsyncValue` (the snippet
is emitted only for non-`Unit` return types) and never sets `status` to 1: it
invokes the guest resolution symbol on a handle whose record is still the
all-zero created record (`status = 0`). -/
theorem unit_async_import_resolves_pending (handle resultPtr resultLen : Nat) :
    asyncThenEvents .Unit handle = [HostEvent.resolveFuture handle]
    ∧ HostEvent.assignAsync handle ∉ asyncThenEvents .Unit handle
    ∧ applyHostEvents resultPtr resultLen createdAsyncRecord
        (asyncThenEvents .Unit handle) = createdAsyncRecord
    ∧ createdAsyncRecord.status = 0
    ∧ assignAsyncValueSnippet .Unit = ""
    ∧ (∀ ty : Ty, ty ≠ .Unit →
        asyncThenEvents ty handle
          = [HostEvent.assignAsync handle, HostEvent.resolveFuture handle]) := by
  refine ⟨rfl, ?_, rfl, rfl, rfl, ?_⟩
  · simp [asyncThenEvents]
  · intro ty hty
    cases ty <;> first | exact absurd rfl hty | rfl

/-- Witness for C9 at a concrete handle and return types. -/
theorem unit_async_import_resolves_pending_witness :
    asyncThenEvents Ty.Unit 42 = [HostEvent.resolveFuture 42]
    ∧ asyncThenEvents Ty.String 42
        = [HostEvent.assignAsync 42, HostEvent.resolveFuture 42] :=
  ⟨(unit_async_import_resolves_pending 42 0 0).1,
   (unit_async_import_resolves_pending 42 0 0).2.2.2.2.2 Ty.String
     (by intro h; cases h)⟩

/-- **C10.** If the host implementation's promise rejects, the generated
wrapper's `.catch` path only logs to the console: it never invokes the guest
resolution symbol, never calls `assignAsyncValue`, and leaves the handle's
record unchanged in the pending state (`status = 0`) — for every return
type. -/
theorem rejected_async_import_stays_pending (returnTy : Ty)
    (handle resultPtr resultLen : Nat) :
    asyncCatchEvents returnTy = [HostEvent.consoleError]
    ∧ HostEvent.resolveFuture handle ∉ asyncCatchEvents returnTy
    ∧ HostEvent.assignAsync handle ∉ asyncCatchEvents returnTy
    ∧ applyHostEvents resultPtr resultLen createdAsyncRecord
        (asyncCatchEvents returnTy) = createdAsyncRecord
    ∧ createdAsyncRecord.status = 0 := by
  refine ⟨rfl, ?_, ?_, rfl, rfl⟩ <;> simp [asyncCatchEvents]

end FpBindgen
